import Mathlib

/-!
Formal model of the screenshotAPI repository: the Bug Capture SDK
(typed client library, `BugCapture` class) and the bug-report submission
endpoint (`bugReportRouter.submit`), embedded shallowly from the
TypeScript sources.  Machine numbers that the claims depend on are
modelled as `Nat`; JavaScript strings as Lean `String` (with `String.length`
standing for the JS length and `String.utf8ByteSize` for `Blob.size`).
-/

namespace BugCaptureSDK

/-- A JavaScript value passed as a console argument, distinguished exactly as
far as the stringification in `addConsoleLog` distinguishes values:
non-objects go through `String(arg)`, objects render via
`JSON.stringify(arg, null, 2)`, and objects whose serialization throws fall
back to `String(arg)`. -/
inductive JSArg where
  | str (s : String)
  | objSer (json : String)
  | objUnser (shown : String)
deriving DecidableEq, Repr

/-- The `args.map(...)` body of `addConsoleLog`. -/
def renderArg : JSArg → String
  | .str s => s
  | .objSer j => j
  | .objUnser shown => shown

/-- ASCII lowercasing of one character (the tag names fed to
`toLowerCase` are ASCII). -/
def jsCharToLower (c : Char) : Char :=
  if 'A' ≤ c ∧ c ≤ 'Z' then Char.ofNat (c.toNat + 32) else c

/-- JavaScript `s.toLowerCase()`. -/
def jsToLower (s : String) : String := ⟨s.data.map jsCharToLower⟩

/-- Splitting a character list at every occurrence of a separator
character; the JS `s.split(sep)` semantics for a one-character separator
(the empty string splits to one empty group). -/
def splitOnChar (sep : Char) : List Char → List (List Char)
  | [] => [[]]
  | c :: cs =>
    let r := splitOnChar sep cs
    if c = sep then [] :: r
    else
      match r with
      | [] => [[c]]
      | g :: gs => (c :: g) :: gs

/-- JavaScript `s.split(" ")`. -/
def jsSplitOnSpace (s : String) : List String :=
  (splitOnChar ' ' s.data).map (fun l => ⟨l⟩)

/-- Substring occurrence on character lists. -/
def containsSub (pat : List Char) : List Char → Bool
  | [] => pat.isPrefixOf []
  | c :: rest => pat.isPrefixOf (c :: rest) || containsSub pat rest

/-- JavaScript `s.includes(pat)`. -/
def jsIncludes (s pat : String) : Bool := containsSub pat.data s.data

/-- The five intercepted console levels. -/
inductive LogType where
  | log
  | error
  | warn
  | info
  | debug
deriving DecidableEq, Repr

/-- `ConsoleLogEntry` from the SDK source. -/
structure ConsoleLogEntry where
  type : LogType
  message : String
  timestamp : Nat
  stack : Option String
deriving DecidableEq, Repr

/-- `NetworkEntry` from the SDK source.  Header maps are association lists
(key, value) with last-write-wins updates. -/
structure NetworkEntry where
  method : String
  url : String
  status : Nat
  statusText : String
  requestHeaders : List (String × String)
  responseHeaders : List (String × String)
  requestBody : Option String
  responseBody : Option String
  startTime : Nat
  duration : Nat
  size : Nat
  type : String
deriving DecidableEq, Repr

/-- `UserAction` from the SDK source. -/
structure UserAction where
  action : String
  target : String
  timestamp : Nat
deriving DecidableEq, Repr

/-- `DeviceInfo` from the SDK source. -/
structure DeviceInfo where
  userAgent : String
  platform : String
  language : String
  screenWidth : Nat
  screenHeight : Nat
  viewportWidth : Nat
  viewportHeight : Nat
  devicePixelRatio : Nat
  timezone : String
  cookiesEnabled : Bool
deriving DecidableEq, Repr

/-- `CaptureData` from the SDK source. -/
structure CaptureData where
  consoleLogs : List ConsoleLogEntry
  networkLogs : List NetworkEntry
  userActions : List UserAction
  deviceInfo : DeviceInfo
  pageUrl : String
  screenshot : Option String
deriving DecidableEq, Repr

/-- `BugCaptureConfig`: every field optional (`none` models an absent
property). -/
structure BugCaptureConfig where
  maxConsoleLogs : Option Nat := none
  maxNetworkLogs : Option Nat := none
  maxUserActions : Option Nat := none
  captureConsole : Option Bool := none
  captureNetwork : Option Bool := none
  captureUserActions : Option Bool := none
deriving DecidableEq, Repr

/-- `Required<BugCaptureConfig>` after merging with `DEFAULT_CONFIG`. -/
structure ResolvedConfig where
  maxConsoleLogs : Nat
  maxNetworkLogs : Nat
  maxUserActions : Nat
  captureConsole : Bool
  captureNetwork : Bool
  captureUserActions : Bool
deriving DecidableEq, Repr

/-- `DEFAULT_CONFIG` from the SDK source. -/
def DEFAULT_CONFIG : ResolvedConfig :=
  { maxConsoleLogs := 100
    maxNetworkLogs := 50
    maxUserActions := 50
    captureConsole := true
    captureNetwork := true
    captureUserActions := true }

/-- The constructor's `{ ...DEFAULT_CONFIG, ...config }` spread: a field
present in `config` wins, an absent one falls back to the default. -/
def mergeConfig (c : BugCaptureConfig) : ResolvedConfig :=
  { maxConsoleLogs := c.maxConsoleLogs.getD DEFAULT_CONFIG.maxConsoleLogs
    maxNetworkLogs := c.maxNetworkLogs.getD DEFAULT_CONFIG.maxNetworkLogs
    maxUserActions := c.maxUserActions.getD DEFAULT_CONFIG.maxUserActions
    captureConsole := c.captureConsole.getD DEFAULT_CONFIG.captureConsole
    captureNetwork := c.captureNetwork.getD DEFAULT_CONFIG.captureNetwork
    captureUserActions := c.captureUserActions.getD DEFAULT_CONFIG.captureUserActions }

/-- JavaScript `arr.slice(-n)` for a natural `n`.  Note `slice(-0)` is
`slice(0)`, i.e. a copy of the whole array, because `-0 === 0`. -/
def jsSliceLast (l : List α) (n : Nat) : List α :=
  if n = 0 then l else l.drop (l.length - n)

/-- The push-then-trim step shared by `addConsoleLog`, `addNetworkLog` and
`addUserAction`: push the entry, then if the length exceeds the configured
maximum replace the buffer with `buffer.slice(-max)`. -/
def pushTrim (l : List α) (a : α) (max : Nat) : List α :=
  let l2 := l ++ [a]
  if max < l2.length then jsSliceLast l2 max else l2

/-- Folding the push-then-trim step over a whole sequence of entries. -/
def appendAll (max : Nat) (start es : List α) : List α :=
  es.foldl (fun l e => pushTrim l e max) start

/-- A reference held in a global interception slot: either the
environment-original function or a wrapper installed by the SDK. -/
inductive FuncRef where
  | origRef (name : String)
  | wrapperRef (name : String)
deriving DecidableEq, Repr

def FuncRef.isWrapper : FuncRef → Bool
  | .origRef _ => false
  | .wrapperRef _ => true

/-- The intercepted browser globals: the five console methods,
`window.fetch`, the three `XMLHttpRequest.prototype` primitives, and the
listener lists on window and document (listeners are recorded by event
name; `addEventListener` only ever adds). -/
structure GlobalEnv where
  consoleLog : FuncRef
  consoleError : FuncRef
  consoleWarn : FuncRef
  consoleInfo : FuncRef
  consoleDebug : FuncRef
  windowFetch : FuncRef
  xhrOpen : FuncRef
  xhrSend : FuncRef
  xhrSetRequestHeader : FuncRef
  windowListeners : List String
  documentListeners : List String
deriving DecidableEq, Repr

/-- A freshly loaded page: every slot holds its original, no listeners. -/
def freshEnv : GlobalEnv :=
  { consoleLog := .origRef "console.log"
    consoleError := .origRef "console.error"
    consoleWarn := .origRef "console.warn"
    consoleInfo := .origRef "console.info"
    consoleDebug := .origRef "console.debug"
    windowFetch := .origRef "fetch"
    xhrOpen := .origRef "XMLHttpRequest.open"
    xhrSend := .origRef "XMLHttpRequest.send"
    xhrSetRequestHeader := .origRef "XMLHttpRequest.setRequestHeader"
    windowListeners := []
    documentListeners := [] }

def consoleSlot (env : GlobalEnv) : LogType → FuncRef
  | .log => env.consoleLog
  | .error => env.consoleError
  | .warn => env.consoleWarn
  | .info => env.consoleInfo
  | .debug => env.consoleDebug

def setConsoleSlot (env : GlobalEnv) (t : LogType) (r : FuncRef) : GlobalEnv :=
  match t with
  | .log => { env with consoleLog := r }
  | .error => { env with consoleError := r }
  | .warn => { env with consoleWarn := r }
  | .info => { env with consoleInfo := r }
  | .debug => { env with consoleDebug := r }

/-- Private state of one `BugCapture` instance. -/
structure BCState where
  consoleLogs : List ConsoleLogEntry
  networkLogs : List NetworkEntry
  userActions : List UserAction
  config : ResolvedConfig
  originalConsole : List (LogType × FuncRef)
  originalFetch : Option FuncRef
  originalXHROpen : Option FuncRef
  originalXHRSend : Option FuncRef
  isInitialized : Bool
deriving DecidableEq, Repr

/-- `new BugCapture(config)`. -/
def mkBugCapture (c : BugCaptureConfig) : BCState :=
  { consoleLogs := []
    networkLogs := []
    userActions := []
    config := mergeConfig c
    originalConsole := []
    originalFetch := none
    originalXHROpen := none
    originalXHRSend := none
    isInitialized := false }

/-- `BugCapture.addConsoleLog`: stringify and join the arguments, stamp a
timestamp, push, trim to `maxConsoleLogs`. -/
def addConsoleLog (st : BCState) (t : LogType) (args : List JSArg)
    (stack : Option String) (now : Nat) : BCState :=
  let entry : ConsoleLogEntry :=
    { type := t
      message := String.intercalate " " (args.map renderArg)
      timestamp := now
      stack := stack }
  { st with consoleLogs := pushTrim st.consoleLogs entry st.config.maxConsoleLogs }

/-- `BugCapture.addNetworkLog`. -/
def addNetworkLog (st : BCState) (entry : NetworkEntry) : BCState :=
  { st with networkLogs := pushTrim st.networkLogs entry st.config.maxNetworkLogs }

/-- `BugCapture.addUserAction`. -/
def addUserAction (st : BCState) (a : UserAction) : BCState :=
  { st with userActions := pushTrim st.userActions a st.config.maxUserActions }

/-- A host-page console call dispatches through whatever the global slot
currently holds: the installed wrapper records an entry and forwards to the
original; the original only prints. -/
def consoleCall (env : GlobalEnv) (st : BCState) (t : LogType)
    (args : List JSArg) (now : Nat) : BCState :=
  if (consoleSlot env t).isWrapper then addConsoleLog st t args none now else st

/-- `BugCapture.initConsoleCapture`: save the five originals on the
instance, install wrappers, and register the window `error` and
`unhandledrejection` listeners. -/
def initConsoleCapture (env : GlobalEnv) (st : BCState) : GlobalEnv × BCState :=
  let st2 := { st with originalConsole :=
    [(.log, env.consoleLog), (.error, env.consoleError),
     (.warn, env.consoleWarn), (.info, env.consoleInfo),
     (.debug, env.consoleDebug)] }
  let env2 := { env with
    consoleLog := .wrapperRef "console.log"
    consoleError := .wrapperRef "console.error"
    consoleWarn := .wrapperRef "console.warn"
    consoleInfo := .wrapperRef "console.info"
    consoleDebug := .wrapperRef "console.debug"
    windowListeners := env.windowListeners ++ ["error", "unhandledrejection"] }
  (env2, st2)

/-- `BugCapture.initNetworkCapture`: save fetch/open/send on the instance
and install wrappers.  The original `setRequestHeader` is captured only in
a local closure variable, never in an instance field. -/
def initNetworkCapture (env : GlobalEnv) (st : BCState) : GlobalEnv × BCState :=
  let st2 := { st with
    originalFetch := some env.windowFetch
    originalXHROpen := some env.xhrOpen
    originalXHRSend := some env.xhrSend }
  let env2 := { env with
    windowFetch := .wrapperRef "fetch"
    xhrOpen := .wrapperRef "XMLHttpRequest.open"
    xhrSend := .wrapperRef "XMLHttpRequest.send"
    xhrSetRequestHeader := .wrapperRef "XMLHttpRequest.setRequestHeader" }
  (env2, st2)

/-- `BugCapture.initUserActionCapture`: document-level `click`, `change`
and `submit` listeners. -/
def initUserActionCapture (env : GlobalEnv) (st : BCState) : GlobalEnv × BCState :=
  ({ env with documentListeners :=
      env.documentListeners ++ ["click", "change", "submit"] }, st)

/-- `BugCapture.init`: no-op when already marked as set up; otherwise
install the enabled capture categories, flip the flag, and emit the
`console.info` banner (which itself runs through the freshly installed
console wrapper). -/
def bcInit (env : GlobalEnv) (st : BCState) (now : Nat) : GlobalEnv × BCState :=
  if st.isInitialized then (env, st)
  else
    let p1 := if st.config.captureConsole then initConsoleCapture env st else (env, st)
    let p2 := if st.config.captureNetwork then initNetworkCapture p1.1 p1.2 else p1
    let p3 := if st.config.captureUserActions then initUserActionCapture p2.1 p2.2 else p2
    let st4 := { p3.2 with isInitialized := true }
    (p3.1, consoleCall p3.1 st4 .info [.str "[BugCapture] SDK initialized"] now)

/-- `BugCapture.destroy`: write back the saved console originals, restore
fetch/open/send when saved, flip the flag and clear the buffers.  Nothing
is done about the `setRequestHeader` wrapper or the window/document
listeners. -/
def bcDestroy (env : GlobalEnv) (st : BCState) : GlobalEnv × BCState :=
  let env1 := st.originalConsole.foldl (fun e p => setConsoleSlot e p.1 p.2) env
  let env2 := match st.originalFetch with
    | some f => { env1 with windowFetch := f }
    | none => env1
  let env3 := match st.originalXHROpen with
    | some f => { env2 with xhrOpen := f }
    | none => env2
  let env4 := match st.originalXHRSend with
    | some f => { env3 with xhrSend := f }
    | none => env3
  (env4, { st with
    isInitialized := false
    consoleLogs := []
    networkLogs := []
    userActions := [] })

/-- A DOM element as far as `getElementSelector` reads it. -/
structure Elem where
  id : String
  tagName : String
  className : String
deriving DecidableEq, Repr

/-- One fragment of the selector: lowercased tag name plus at most the
first two non-empty class names, dot-joined (the `className` truthiness
check skips the class clause for an empty string). -/
def selectorPart (e : Elem) : String :=
  let base := jsToLower e.tagName
  if e.className ≠ "" then
    let classes := ((jsSplitOnSpace e.className).filter (fun s => s ≠ "")).take 2
    if classes ≠ [] then base ++ "." ++ String.intercalate "." classes else base
  else base

/-- The upward walk of `getElementSelector`: the input list is the element
followed by its parent elements up to, but excluding, `document.body` (the
while condition stops at body or a missing parent); each visited element's
fragment is unshifted onto the accumulator and the walk breaks at three
fragments. -/
def buildParts : List Elem → List String → List String
  | [], parts => parts
  | e :: rest, parts =>
    let parts2 := selectorPart e :: parts
    if 3 ≤ parts2.length then parts2 else buildParts rest parts2

/-- `BugCapture.getElementSelector`. -/
def getElementSelector (chain : List Elem) : String :=
  match chain with
  | [] => ""
  | e :: _ =>
    if e.id ≠ "" then "#" ++ e.id
    else String.intercalate " > " (buildParts chain [])

/-- The first argument of the fetch wrapper: `string | URL | Request`. -/
inductive FetchInput where
  | urlStr (s : String)
  | urlObj (href : String)
  | request (url : String)
deriving DecidableEq, Repr

/-- `typeof input === "string" ? input : input instanceof URL ? input.href
: input.url`. -/
def effectiveUrl : FetchInput → String
  | .urlStr s => s
  | .urlObj href => href
  | .request url => url

/-- Last-write-wins update of a JS-object-like association list; an
existing key keeps its position. -/
def assocSet (m : List (String × String)) (k v : String) :
    List (String × String) :=
  if m.any (fun p => p.1 == k) then
    m.map (fun p => if p.1 == k then (k, v) else p)
  else m ++ [(k, v)]

/-- The three accepted shapes of `init.headers`: a `Headers` object, an
array of pairs, or a plain record. -/
inductive HeadersShape where
  | headersObj (pairs : List (String × String))
  | pairList (pairs : List (String × String))
  | record (pairs : List (String × String))
deriving DecidableEq, Repr

/-- The header-snapshot branch of the fetch wrapper: all three shapes are
accumulated into one `requestHeaders` record, last write per key wins. -/
def collectHeaders : Option HeadersShape → List (String × String)
  | none => []
  | some (.headersObj ps) => ps.foldl (fun m p => assocSet m p.1 p.2) []
  | some (.pairList ps) => ps.foldl (fun m p => assocSet m p.1 p.2) []
  | some (.record ps) => ps.foldl (fun m p => assocSet m p.1 p.2) []

/-- The shapes of `init.body` the wrapper distinguishes. -/
inductive BodyShape where
  | strBody (s : String)
  | formData
  | binary
deriving DecidableEq, Repr

/-- The `requestBody` computation (`if (init?.body)` is a truthiness test,
so an empty-string body stays undefined). -/
def renderRequestBody : Option BodyShape → Option String
  | none => none
  | some (.strBody s) => if s = "" then none else some s
  | some .formData => some "[FormData]"
  | some .binary => some "[Binary Data]"

/-- The fields of `RequestInit` the wrapper reads. -/
structure RequestInitModel where
  method : Option String := none
  headers : Option HeadersShape := none
  body : Option BodyShape := none
deriving DecidableEq, Repr

/-- JavaScript `x || d` on an optional string. -/
def jsOrStr (x : Option String) (d : String) : String :=
  match x with
  | none => d
  | some s => if s = "" then d else s

/-- JavaScript `x || null` on an optional string. -/
def jsOrNull (x : Option String) : Option String :=
  match x with
  | none => none
  | some s => if s = "" then none else some s

/-- A settled HTTP response as far as the wrapper reads it.  The body is
the decoded text; its raw bytes are its UTF-8 encoding, so `Blob.size` is
`utf8ByteSize`.  `readFails` models the clone-read throwing. -/
structure ResponseModel where
  status : Nat
  statusText : String
  headers : List (String × String)
  bodyText : String
  blobType : String
  readFails : Bool
deriving DecidableEq, Repr

/-- `Headers.get` on the response header record. -/
def headersGet (hs : List (String × String)) (k : String) : Option String :=
  (hs.find? (fun p => p.1 == k)).map (fun p => p.2)

/-- Result of the best-effort response-body read. -/
structure ReadBody where
  responseBody : Option String
  size : Nat
deriving DecidableEq, Repr

/-- The response-body branch of the fetch wrapper: textual/JSON content
types read the text, record its byte size, and truncate past 10000
characters; other content types record a binary descriptor; a throwing
read degrades to a placeholder with size 0. -/
def readResponseBody (resp : ResponseModel) : ReadBody :=
  if resp.readFails then
    { responseBody := some "[Unable to read response]", size := 0 }
  else
    let contentType := jsOrStr (headersGet resp.headers "content-type") ""
    if jsIncludes contentType "application/json"
        || jsIncludes contentType "text/" then
      let size := resp.bodyText.utf8ByteSize
      let rb := if 10000 < resp.bodyText.length then
          (resp.bodyText.take 10000) ++ "... [truncated]"
        else resp.bodyText
      { responseBody := some rb, size := size }
    else
      let size := resp.bodyText.utf8ByteSize
      { responseBody := some ("[Binary: " ++ resp.blobType ++ ", "
          ++ toString size ++ " bytes]"), size := size }

/-- How the delegated original fetch settles. -/
inductive FetchOutcome where
  | succeeds (resp : ResponseModel)
  | fails (err : String)
deriving DecidableEq, Repr

/-- The network entry assembled on the success path of the fetch wrapper. -/
def fetchSuccessEntry (input : FetchInput) (initArg : Option RequestInitModel)
    (startTime dur : Nat) (resp : ResponseModel) : NetworkEntry :=
  let rb := readResponseBody resp
  { method := jsOrStr (initArg.bind (fun i => i.method)) "GET"
    url := effectiveUrl input
    status := resp.status
    statusText := resp.statusText
    requestHeaders := collectHeaders (initArg.bind (fun i => i.headers))
    responseHeaders := resp.headers
    requestBody := renderRequestBody (initArg.bind (fun i => i.body))
    responseBody := rb.responseBody
    startTime := startTime
    duration := dur
    size := rb.size
    type := jsOrStr (headersGet resp.headers "content-type") "unknown" }

/-- The synthetic network entry assembled on the catch path of the fetch
wrapper. -/
def fetchErrorEntry (input : FetchInput) (initArg : Option RequestInitModel)
    (startTime dur : Nat) (err : String) : NetworkEntry :=
  { method := jsOrStr (initArg.bind (fun i => i.method)) "GET"
    url := effectiveUrl input
    status := 0
    statusText := "Network Error"
    requestHeaders := collectHeaders (initArg.bind (fun i => i.headers))
    responseHeaders := []
    requestBody := renderRequestBody (initArg.bind (fun i => i.body))
    responseBody := some err
    startTime := startTime
    duration := dur
    size := 0
    type := "error" }

/-- The installed `window.fetch` wrapper, as a function of how the
delegated call settles: record one entry, then return the response
unchanged or rethrow the original error unchanged. -/
def fetchWrapper (st : BCState) (input : FetchInput)
    (initArg : Option RequestInitModel) (startTime dur : Nat)
    (outcome : FetchOutcome) : BCState × Except String ResponseModel :=
  match outcome with
  | .succeeds resp =>
    (addNetworkLog st (fetchSuccessEntry input initArg startTime dur resp),
     .ok resp)
  | .fails err =>
    (addNetworkLog st (fetchErrorEntry input initArg startTime dur err),
     .error err)

/-- How the html2canvas rasterization settles. -/
inductive ScreenshotOutcome where
  | rendered (dataUrl : String)
  | throws (err : String)
deriving DecidableEq, Repr

/-- `BugCapture.captureScreenshot`: resolve with the data URL on success;
on a thrown error, report it via `console.error` (which runs through the
interception path when installed) and rethrow. -/
def captureScreenshot (env : GlobalEnv) (st : BCState)
    (o : ScreenshotOutcome) (now : Nat) : BCState × Except String String :=
  match o with
  | .rendered dataUrl => (st, .ok dataUrl)
  | .throws err =>
    (consoleCall env st .error
      [.str "[BugCapture] Screenshot capture failed:", .str err] now,
     .error err)

/-- The browser globals `getDeviceInfo` and `getCaptureData` read. -/
structure BrowserEnv where
  userAgent : String
  platform : String
  language : String
  screenWidth : Nat
  screenHeight : Nat
  innerWidth : Nat
  innerHeight : Nat
  devicePixelRatio : Nat
  timezone : String
  cookieEnabled : Bool
  locationHref : String
deriving DecidableEq, Repr

/-- `BugCapture.getDeviceInfo`. -/
def getDeviceInfo (b : BrowserEnv) : DeviceInfo :=
  { userAgent := b.userAgent
    platform := b.platform
    language := b.language
    screenWidth := b.screenWidth
    screenHeight := b.screenHeight
    viewportWidth := b.innerWidth
    viewportHeight := b.innerHeight
    devicePixelRatio := b.devicePixelRatio
    timezone := b.timezone
    cookiesEnabled := b.cookieEnabled }

/-- `BugCapture.getCaptureData`: snapshot the buffers, device info and URL
first; when a screenshot is requested, a successful rasterization fills the
field and a rejection is caught and leaves it unset. -/
def getCaptureData (env : GlobalEnv) (b : BrowserEnv) (st : BCState)
    (includeScreenshot : Bool) (o : ScreenshotOutcome) (now : Nat) :
    BCState × CaptureData :=
  let data : CaptureData :=
    { consoleLogs := st.consoleLogs
      networkLogs := st.networkLogs
      userActions := st.userActions
      deviceInfo := getDeviceInfo b
      pageUrl := b.locationHref
      screenshot := none }
  if includeScreenshot then
    match captureScreenshot env st o now with
    | (st2, .ok s) => (st2, { data with screenshot := some s })
    | (st2, .error _) => (st2, data)
  else (st, data)

/-- One intercepted console call, as fed to `addConsoleLog`. -/
structure ConsoleEvent where
  t : LogType
  args : List JSArg
  stack : Option String
  now : Nat
deriving DecidableEq, Repr

/-- The console entry `addConsoleLog` builds for one event. -/
def consoleEntryOf (ev : ConsoleEvent) : ConsoleLogEntry :=
  { type := ev.t
    message := String.intercalate " " (ev.args.map renderArg)
    timestamp := ev.now
    stack := ev.stack }

/-- A whole sequence of intercepted console calls. -/
def runConsoleEvents (st : BCState) (evs : List ConsoleEvent) : BCState :=
  evs.foldl (fun s ev => addConsoleLog s ev.t ev.args ev.stack ev.now) st

/-- A whole sequence of recorded network exchanges. -/
def runNetworkEntries (st : BCState) (es : List NetworkEntry) : BCState :=
  es.foldl addNetworkLog st

/-- A whole sequence of recorded user actions. -/
def runUserActions (st : BCState) (acts : List UserAction) : BCState :=
  acts.foldl addUserAction st

/-- The options object accepted by the embeddable widget script's
`window.BugCapture.init` (the second concatenated document of
useAuth.ts); `none` models an absent property. -/
structure WidgetOptions where
  projectKey : Option String := none
  apiEndpoint : Option String := none
  showButton : Option Bool := none
  buttonPosition : Option String := none
  captureConsole : Option Bool := none
  captureNetwork : Option Bool := none
  captureUserActions : Option Bool := none
  maxConsoleLogs : Option Nat := none
  maxNetworkLogs : Option Nat := none
  maxUserActions : Option Nat := none
deriving DecidableEq, Repr

/-- The widget's fully populated configuration record. -/
structure WidgetConfig where
  projectKey : String
  apiEndpoint : String
  showButton : Bool
  buttonPosition : String
  captureConsole : Bool
  captureNetwork : Bool
  captureUserActions : Bool
  maxConsoleLogs : Nat
  maxNetworkLogs : Nat
  maxUserActions : Nat
deriving DecidableEq, Repr

/-- The widget script's `DEFAULT_CONFIG` (note the empty-string defaults
for projectKey and apiEndpoint). -/
def WIDGET_DEFAULT_CONFIG : WidgetConfig :=
  { projectKey := ""
    apiEndpoint := ""
    showButton := true
    buttonPosition := "bottom-right"
    captureConsole := true
    captureNetwork := true
    captureUserActions := true
    maxConsoleLogs := 100
    maxNetworkLogs := 50
    maxUserActions := 50 }

/-- `Object.assign({}, DEFAULT_CONFIG, options)`: a property present in the
options wins, an absent one falls back to the default. -/
def assignConfig (o : WidgetOptions) : WidgetConfig :=
  { projectKey := o.projectKey.getD WIDGET_DEFAULT_CONFIG.projectKey
    apiEndpoint := o.apiEndpoint.getD WIDGET_DEFAULT_CONFIG.apiEndpoint
    showButton := o.showButton.getD WIDGET_DEFAULT_CONFIG.showButton
    buttonPosition := o.buttonPosition.getD WIDGET_DEFAULT_CONFIG.buttonPosition
    captureConsole := o.captureConsole.getD WIDGET_DEFAULT_CONFIG.captureConsole
    captureNetwork := o.captureNetwork.getD WIDGET_DEFAULT_CONFIG.captureNetwork
    captureUserActions :=
      o.captureUserActions.getD WIDGET_DEFAULT_CONFIG.captureUserActions
    maxConsoleLogs := o.maxConsoleLogs.getD WIDGET_DEFAULT_CONFIG.maxConsoleLogs
    maxNetworkLogs := o.maxNetworkLogs.getD WIDGET_DEFAULT_CONFIG.maxNetworkLogs
    maxUserActions := o.maxUserActions.getD WIDGET_DEFAULT_CONFIG.maxUserActions }

/-- Module-level state of the embeddable widget script: its configuration,
the three buffers, the saved originals, the initialized flag, and whether
the floating launcher button was installed. -/
structure WidgetState where
  config : WidgetConfig
  consoleLogs : List ConsoleLogEntry
  networkLogs : List NetworkEntry
  userActions : List UserAction
  isInitialized : Bool
  originalConsole : List (LogType × FuncRef)
  originalFetch : Option FuncRef
  originalXHROpen : Option FuncRef
  originalXHRSend : Option FuncRef
  buttonInstalled : Bool
deriving DecidableEq, Repr

/-- The widget script's module-level variables as first evaluated. -/
def mkWidgetState : WidgetState :=
  { config := WIDGET_DEFAULT_CONFIG
    consoleLogs := []
    networkLogs := []
    userActions := []
    isInitialized := false
    originalConsole := []
    originalFetch := none
    originalXHROpen := none
    originalXHRSend := none
    buttonInstalled := false }

/-- The widget's `addConsoleLog`: same stringify-join-push-trim step as the
typed library. -/
def widgetAddConsoleLog (st : WidgetState) (t : LogType) (args : List JSArg)
    (stack : Option String) (now : Nat) : WidgetState :=
  let entry : ConsoleLogEntry :=
    { type := t
      message := String.intercalate " " (args.map renderArg)
      timestamp := now
      stack := stack }
  { st with consoleLogs :=
      pushTrim st.consoleLogs entry st.config.maxConsoleLogs }

/-- The widget's `initConsoleCapture`: save the five originals in the
module variable, install wrappers, register the window `error` and
`unhandledrejection` listeners. -/
def widgetInitConsoleCapture (env : GlobalEnv) (st : WidgetState) :
    GlobalEnv × WidgetState :=
  let st2 := { st with originalConsole :=
    [(.log, env.consoleLog), (.error, env.consoleError),
     (.warn, env.consoleWarn), (.info, env.consoleInfo),
     (.debug, env.consoleDebug)] }
  let env2 := { env with
    consoleLog := .wrapperRef "console.log"
    consoleError := .wrapperRef "console.error"
    consoleWarn := .wrapperRef "console.warn"
    consoleInfo := .wrapperRef "console.info"
    consoleDebug := .wrapperRef "console.debug"
    windowListeners := env.windowListeners ++ ["error", "unhandledrejection"] }
  (env2, st2)

/-- The widget's `initNetworkCapture`: save fetch/open/send in module
variables and install wrappers; as in the typed library, the original
`setRequestHeader` is kept only in a local `var`. -/
def widgetInitNetworkCapture (env : GlobalEnv) (st : WidgetState) :
    GlobalEnv × WidgetState :=
  let st2 := { st with
    originalFetch := some env.windowFetch
    originalXHROpen := some env.xhrOpen
    originalXHRSend := some env.xhrSend }
  let env2 := { env with
    windowFetch := .wrapperRef "fetch"
    xhrOpen := .wrapperRef "XMLHttpRequest.open"
    xhrSend := .wrapperRef "XMLHttpRequest.send"
    xhrSetRequestHeader := .wrapperRef "XMLHttpRequest.setRequestHeader" }
  (env2, st2)

/-- The widget's `initUserActionCapture`: document-level `click`, `change`
and `submit` listeners. -/
def widgetInitUserActionCapture (env : GlobalEnv) (st : WidgetState) :
    GlobalEnv × WidgetState :=
  ({ env with documentListeners :=
      env.documentListeners ++ ["click", "change", "submit"] }, st)

/-- `window.BugCapture.init(options)` from the widget script: a no-op when
already marked as set up; otherwise merge the options over the defaults,
then validate — an empty (falsy) projectKey or apiEndpoint prints one
`console.error` message and returns before anything is installed.  On
success the enabled categories are installed, the launcher button created
when requested, the flag flipped, and the `console.info` banner emitted
(running through the freshly installed console wrapper).  The third result
component is the sequence of (level, message) pairs the call itself sends
through the console. -/
def widgetInit (env : GlobalEnv) (st : WidgetState) (options : WidgetOptions)
    (now : Nat) : GlobalEnv × WidgetState × List (LogType × String) :=
  if st.isInitialized then (env, st, [])
  else
    let cfg := assignConfig options
    let st1 := { st with config := cfg }
    if cfg.projectKey = "" then
      (env, st1, [(.error, "[BugCapture] projectKey is required")])
    else if cfg.apiEndpoint = "" then
      (env, st1, [(.error, "[BugCapture] apiEndpoint is required")])
    else
      let p1 := if cfg.captureConsole then widgetInitConsoleCapture env st1
        else (env, st1)
      let p2 := if cfg.captureNetwork then widgetInitNetworkCapture p1.1 p1.2
        else p1
      let p3 := if cfg.captureUserActions then
          widgetInitUserActionCapture p2.1 p2.2
        else p2
      let st4 := { p3.2 with
        buttonInstalled := cfg.showButton
        isInitialized := true }
      let st5 := if (consoleSlot p3.1 .info).isWrapper then
          widgetAddConsoleLog st4 .info
            [.str "[BugCapture] SDK initialized"] none now
        else st4
      (p3.1, st5, [(.info, "[BugCapture] SDK initialized")])

end BugCaptureSDK

namespace BugReportServer

/-- A row of the projects table, as far as `bugReportRouter.submit` reads
it. -/
structure Project where
  id : Nat
  projectKey : String
deriving DecidableEq, Repr

/-- The zod-validated input of `bugReportRouter.submit`. -/
structure SubmitInput where
  projectKey : String
  title : Option String := none
  description : Option String := none
  pageUrl : String
  screenshot : Option String := none
  consoleLogs : Option (List BugCaptureSDK.ConsoleLogEntry) := none
  networkLogs : Option (List BugCaptureSDK.NetworkEntry) := none
  deviceInfo : Option BugCaptureSDK.DeviceInfo := none
  userActions : Option (List BugCaptureSDK.UserAction) := none
  reporterEmail : Option String := none
  reporterName : Option String := none
  sessionId : Option String := none
deriving DecidableEq, Repr

/-- The values handed to `db.insert(bugReports).values({...})`. -/
structure StoredBugReport where
  projectId : Nat
  title : String
  description : Option String
  pageUrl : String
  screenshotUrl : Option String
  consoleLogs : Option (List BugCaptureSDK.ConsoleLogEntry)
  networkLogs : Option (List BugCaptureSDK.NetworkEntry)
  deviceInfo : Option BugCaptureSDK.DeviceInfo
  userActions : Option (List BugCaptureSDK.UserAction)
  reporterEmail : Option String
  reporterName : Option String
  sessionId : Option String
deriving DecidableEq, Repr

/-- The object literal inside `db.insert(bugReports).values(...)` of
`bugReportRouter.submit` (`input.title || "Untitled Bug Report"`, the other
optionals via `|| null`; an empty array is truthy, so the log arrays pass
through unchanged). -/
def submitInsertValues (projectId : Nat) (screenshotUrl : Option String)
    (input : SubmitInput) : StoredBugReport :=
  { projectId := projectId
    title := BugCaptureSDK.jsOrStr input.title "Untitled Bug Report"
    description := BugCaptureSDK.jsOrNull input.description
    pageUrl := input.pageUrl
    screenshotUrl := BugCaptureSDK.jsOrNull screenshotUrl
    consoleLogs := input.consoleLogs
    networkLogs := input.networkLogs
    deviceInfo := input.deviceInfo
    userActions := input.userActions
    reporterEmail := BugCaptureSDK.jsOrNull input.reporterEmail
    reporterName := BugCaptureSDK.jsOrNull input.reporterName
    sessionId := BugCaptureSDK.jsOrNull input.sessionId }

/-- `bugReportRouter.submit`: look the project up by key (unknown key is a
NOT_FOUND error), upload the screenshot when one is provided (`uploadUrl`
is the S3 URL on success and `none` when the upload threw, in which case
the report simply proceeds without it), insert the row, and answer with the
insert id. -/
def bugReportSubmit (projects : List Project) (uploadUrl : Option String)
    (insertId : Nat) (input : SubmitInput) :
    Except String (StoredBugReport × Nat) :=
  match projects.find? (fun p => p.projectKey == input.projectKey) with
  | none => .error "Invalid project key"
  | some p =>
    let screenshotUrl : Option String :=
      match input.screenshot with
      | some s => if s = "" then none else uploadUrl
      | none => none
    .ok (submitInsertValues p.id screenshotUrl input, insertId)

end BugReportServer

namespace BugCaptureSDK

lemma pushTrim_eq_drop (l : List α) (a : α) (max : Nat) (h : 1 ≤ max) :
    pushTrim l a max = (l ++ [a]).drop ((l.length + 1) - max) := by
  unfold pushTrim jsSliceLast
  simp only [List.length_append, List.length_cons, List.length_nil]
  by_cases hlt : max < l.length + 1
  · have hmax : ¬ max = 0 := by omega
    simp [hlt, hmax]
  · have h0 : l.length + 1 - max = 0 := by omega
    simp [hlt, h0]

lemma length_pushTrim (l : List α) (a : α) (max : Nat) (h : 1 ≤ max) :
    (pushTrim l a max).length = min (l.length + 1) max := by
  rw [pushTrim_eq_drop l a max h]
  simp only [List.length_drop, List.length_append, List.length_cons,
    List.length_nil]
  omega

lemma getLast?_pushTrim (l : List α) (a : α) (max : Nat) (h : 1 ≤ max) :
    (pushTrim l a max).getLast? = some a := by
  rw [pushTrim_eq_drop l a max h]
  rw [List.drop_append_of_le_length (by simp; omega)]
  exact List.getLast?_concat _

/-- Folding push-then-trim from a buffer within bounds keeps exactly the
most recent `max` entries, in insertion order. -/
lemma appendAll_eq_drop (max : Nat) (h : 1 ≤ max) (es : List α) :
    ∀ start : List α, start.length ≤ max →
      appendAll max start es = (start ++ es).drop ((start ++ es).length - max) := by
  induction es with
  | nil =>
    intro start hs
    have h0 : start.length - max = 0 := by omega
    simp [appendAll, h0]
  | cons e es ih =>
    intro start hs
    have hstep : appendAll max start (e :: es) = appendAll max (pushTrim start e max) es := rfl
    have hle : (pushTrim start e max).length ≤ max := by
      rw [length_pushTrim start e max h]; omega
    rw [hstep, ih _ hle, pushTrim_eq_drop start e max h]
    have hsplit : (start ++ e :: es).drop (start.length + 1 - max)
        = (start ++ [e]).drop (start.length + 1 - max) ++ es := by
      have hl : start ++ e :: es = (start ++ [e]) ++ es := by simp
      rw [hl, List.drop_append_of_le_length (by simp)]
    rw [← hsplit, List.drop_drop]
    congr 1
    simp only [List.length_drop, List.length_append, List.length_cons,
      List.length_nil]
    omega

lemma length_appendAll (max : Nat) (h : 1 ≤ max) (es : List α) :
    (appendAll max [] es).length = min es.length max := by
  rw [appendAll_eq_drop max h es [] (by simp)]
  simp only [List.nil_append, List.length_drop]
  omega

lemma runConsoleEvents_consoleLogs (evs : List ConsoleEvent) :
    ∀ st : BCState, (runConsoleEvents st evs).consoleLogs
      = appendAll st.config.maxConsoleLogs st.consoleLogs (evs.map consoleEntryOf) := by
  induction evs with
  | nil => intro st; rfl
  | cons ev evs ih =>
    intro st
    have h1 : runConsoleEvents st (ev :: evs)
        = runConsoleEvents (addConsoleLog st ev.t ev.args ev.stack ev.now) evs := rfl
    rw [h1, ih]
    rfl

lemma runNetworkEntries_networkLogs (es : List NetworkEntry) :
    ∀ st : BCState, (runNetworkEntries st es).networkLogs
      = appendAll st.config.maxNetworkLogs st.networkLogs es := by
  induction es with
  | nil => intro st; rfl
  | cons e es ih =>
    intro st
    have h1 : runNetworkEntries st (e :: es)
        = runNetworkEntries (addNetworkLog st e) es := rfl
    rw [h1, ih]
    rfl

lemma runUserActions_userActions (acts : List UserAction) :
    ∀ st : BCState, (runUserActions st acts).userActions
      = appendAll st.config.maxUserActions st.userActions acts := by
  induction acts with
  | nil => intro st; rfl
  | cons a acts ih =>
    intro st
    have h1 : runUserActions st (a :: acts)
        = runUserActions (addUserAction st a) acts := rfl
    rw [h1, ih]
    rfl

/-- The upward walk accumulates the fragments of the deepest
`3 - parts.length` remaining elements, shallowest first. -/
lemma buildParts_eq (chain : List Elem) :
    ∀ parts : List String, parts.length ≤ 2 →
      buildParts chain parts
        = ((chain.take (3 - parts.length)).map selectorPart).reverse ++ parts := by
  induction chain with
  | nil => intro parts _; simp [buildParts]
  | cons e rest ih =>
    intro parts hp
    unfold buildParts
    by_cases h3 : 3 ≤ (selectorPart e :: parts).length
    · have h2 : parts.length = 2 := by simp at h3; omega
      rw [if_pos h3]
      simp [h2, List.take_succ_cons]
    · have hlt : (selectorPart e :: parts).length ≤ 2 := by
        simp at h3 ⊢; omega
      rw [if_neg h3, ih _ hlt]
      have htake : (3 - parts.length) = (3 - (parts.length + 1)) + 1 := by
        simp at h3; omega
      rw [htake, List.take_succ_cons]
      simp [List.append_assoc]

lemma buildParts_nil_eq (chain : List Elem) :
    buildParts chain [] = ((chain.take 3).map selectorPart).reverse := by
  have h := buildParts_eq chain [] (by simp)
  simpa using h

lemma length_buildParts_nil (chain : List Elem) :
    (buildParts chain []).length = min chain.length 3 := by
  rw [buildParts_nil_eq]
  simp [List.length_take, Nat.min_comm]

end BugCaptureSDK

section Claims

open BugCaptureSDK BugReportServer

/-- C7: setting the instance up with maxConsoleLogs = 2 and console capture
on, then running console.error "a", console.warn "b", console.log "c",
leaves the captured console-log buffer of length 2 consisting of the warn
"b" entry followed by the log "c" entry, in that order (the banner entry
emitted during set-up is evicted by the FIFO trim). -/
theorem C7_console_scenario :
    (let p := bcInit freshEnv (mkBugCapture { maxConsoleLogs := some 2 }) 0
     let st2 := consoleCall p.1 p.2 .error [.str "a"] 1
     let st3 := consoleCall p.1 st2 .warn [.str "b"] 2
     let st4 := consoleCall p.1 st3 .log [.str "c"] 3
     let benv : BrowserEnv :=
       ⟨"ua", "pl", "en", 1, 1, 1, 1, 1, "tz", true, "https://page"⟩
     let data := (getCaptureData p.1 benv st4 false (.rendered "s") 4).2
     data.consoleLogs.length = 2 ∧
       data.consoleLogs.map (fun e => (e.type, e.message))
         = [(.warn, "b"), (.log, "c")]) :=
  ⟨rfl, rfl⟩

/-- C2 counterexample: with a configured maximum of 0 the trim step is
slice(-0), which is slice(0), a copy of the whole buffer; so a single
append already leaves the buffer longer than the configured maximum, and
the claim's bound fails as stated. -/
theorem C2_zero_max_counterexample :
    (mkBugCapture { maxConsoleLogs := some 0 }).config.maxConsoleLogs = 0 ∧
    (addConsoleLog (mkBugCapture { maxConsoleLogs := some 0 })
        .log [.str "a"] none 0).consoleLogs.length = 1 :=
  ⟨rfl, rfl⟩

/-- C2 amended: for each of the three buffers with a **positive** configured
maximum, the buffer after any sequence of appends from a fresh instance is
exactly the most recent entries of the sequence in original insertion
order, and its length never exceeds (equals the minimum with) the
maximum. -/
theorem C2_bounded_fifo_amended (cfg : BugCaptureConfig)
    (hC : 1 ≤ (mergeConfig cfg).maxConsoleLogs)
    (hN : 1 ≤ (mergeConfig cfg).maxNetworkLogs)
    (hU : 1 ≤ (mergeConfig cfg).maxUserActions)
    (evs : List ConsoleEvent) (nes : List NetworkEntry)
    (uas : List UserAction) :
    (let st := mkBugCapture cfg
     let cs := (runConsoleEvents st evs).consoleLogs
     let ns := (runNetworkEntries st nes).networkLogs
     let us := (runUserActions st uas).userActions
     cs = (evs.map consoleEntryOf).drop
            (evs.length - (mergeConfig cfg).maxConsoleLogs) ∧
     cs.length = min evs.length (mergeConfig cfg).maxConsoleLogs ∧
     ns = nes.drop (nes.length - (mergeConfig cfg).maxNetworkLogs) ∧
     ns.length = min nes.length (mergeConfig cfg).maxNetworkLogs ∧
     us = uas.drop (uas.length - (mergeConfig cfg).maxUserActions) ∧
     us.length = min uas.length (mergeConfig cfg).maxUserActions) := by
  have hcfg : (mkBugCapture cfg).config = mergeConfig cfg := rfl
  have hc1 := runConsoleEvents_consoleLogs evs (mkBugCapture cfg)
  have hn1 := runNetworkEntries_networkLogs nes (mkBugCapture cfg)
  have hu1 := runUserActions_userActions uas (mkBugCapture cfg)
  have hce : (mkBugCapture cfg).consoleLogs = [] := rfl
  have hne : (mkBugCapture cfg).networkLogs = [] := rfl
  have hue : (mkBugCapture cfg).userActions = [] := rfl
  rw [hcfg, hce] at hc1
  rw [hcfg, hne] at hn1
  rw [hcfg, hue] at hu1
  refine ⟨?_, ?_, ?_, ?_, ?_, ?_⟩
  · rw [hc1, appendAll_eq_drop _ hC _ [] (by simp)]
    simp
  · rw [hc1]
    have := length_appendAll _ hC (evs.map consoleEntryOf)
    simpa using this
  · rw [hn1, appendAll_eq_drop _ hN _ [] (by simp)]
    simp
  · rw [hn1]
    exact length_appendAll _ hN nes
  · rw [hu1, appendAll_eq_drop _ hU _ [] (by simp)]
    simp
  · rw [hu1]
    exact length_appendAll _ hU uas

/-- C2 witness: the amended statement at a concrete instance. -/
theorem C2_bounded_fifo_amended_witness :
    (let evs : List ConsoleEvent := [⟨.log, [.str "a"], none, 0⟩]
     let nes : List NetworkEntry := []
     let uas : List UserAction := []
     let st := mkBugCapture {}
     let cs := (runConsoleEvents st evs).consoleLogs
     let ns := (runNetworkEntries st nes).networkLogs
     let us := (runUserActions st uas).userActions
     cs = (evs.map consoleEntryOf).drop
            (evs.length - (mergeConfig {}).maxConsoleLogs) ∧
     cs.length = min evs.length (mergeConfig {}).maxConsoleLogs ∧
     ns = nes.drop (nes.length - (mergeConfig {}).maxNetworkLogs) ∧
     ns.length = min nes.length (mergeConfig {}).maxNetworkLogs ∧
     us = uas.drop (uas.length - (mergeConfig {}).maxUserActions) ∧
     us.length = min uas.length (mergeConfig {}).maxUserActions) :=
  C2_bounded_fifo_amended {} (by decide) (by decide) (by decide)
    [⟨.log, [.str "a"], none, 0⟩] [] []

/-- C3: the target descriptor is "#id" for an element with a non-empty id;
otherwise it joins, with " > ", the fragments of at most the deepest three
elements of the upward walk (element first, stopping before the body),
top-to-bottom, each fragment being the lowercased tag name with at most
the first two class names; in particular a button with id "save" yields
"#save", and an element four levels deep with no ids and one class per
level yields exactly three fragments each formatted tag.class. -/
theorem C3_selector (e : Elem) (rest : List Elem) :
    (e.id ≠ "" → getElementSelector (e :: rest) = "#" ++ e.id) ∧
    (e.id = "" → getElementSelector (e :: rest)
        = String.intercalate " > "
            ((((e :: rest).take 3).map selectorPart).reverse)) ∧
    (buildParts (e :: rest) []).length = min (e :: rest).length 3 ∧
    getElementSelector [⟨"save", "BUTTON", ""⟩] = "#save" ∧
    getElementSelector [⟨"", "SPAN", "c0"⟩, ⟨"", "DIV", "c1"⟩,
        ⟨"", "SECTION", "c2"⟩, ⟨"", "MAIN", "c3"⟩]
      = "section.c2 > div.c1 > span.c0" := by
  refine ⟨?_, ?_, length_buildParts_nil _, rfl, rfl⟩
  · intro h
    simp [getElementSelector, h]
  · intro h
    simp [getElementSelector, h, buildParts_nil_eq]

/-- C3 witness: the id branch at a concrete element. -/
theorem C3_selector_witness :
    getElementSelector [⟨"save", "BUTTON", ""⟩] = "#save" :=
  (C3_selector ⟨"save", "BUTTON", ""⟩ []).1 (by decide)

/-- C1 counterexample: on a fresh page with the default configuration,
running the set-up and then the teardown does not restore the globals to
their pre-set-up references: the setRequestHeader slot still holds the
wrapper, and the window/document listeners installed by the set-up are
still attached, so residual interception remains. -/
theorem C1_teardown_residual_counterexample :
    (let p := bcInit freshEnv (mkBugCapture {}) 0
     let q := bcDestroy p.1 p.2
     q.1 ≠ freshEnv ∧
     q.1.xhrSetRequestHeader
        = FuncRef.wrapperRef "XMLHttpRequest.setRequestHeader" ∧
     freshEnv.xhrSetRequestHeader
        = FuncRef.origRef "XMLHttpRequest.setRequestHeader" ∧
     q.1.windowListeners = ["error", "unhandledrejection"] ∧
     q.1.documentListeners = ["click", "change", "submit"] ∧
     freshEnv.windowListeners = [] ∧ freshEnv.documentListeners = []) := by
  refine ⟨?_, rfl, rfl, rfl, rfl, rfl, rfl⟩
  intro h
  exact absurd (congrArg GlobalEnv.windowListeners h) (by decide)

/-- C1 amended: for every starting environment and configuration, teardown
after set-up restores the five console methods, window.fetch and the XHR
open/send primitives to their pre-set-up references, clears all three
buffers and resets the flag; but the setRequestHeader wrapper stays
installed whenever network capture was enabled, and the window/document
listeners registered by set-up stay attached, so subsequent behavior is
not identical to a page that never ran the set-up. -/
theorem C1_teardown_amended (env : GlobalEnv) (cfg : BugCaptureConfig)
    (now : Nat) :
    (let p := bcInit env (mkBugCapture cfg) now
     let q := bcDestroy p.1 p.2
     q.1.consoleLog = env.consoleLog ∧
     q.1.consoleError = env.consoleError ∧
     q.1.consoleWarn = env.consoleWarn ∧
     q.1.consoleInfo = env.consoleInfo ∧
     q.1.consoleDebug = env.consoleDebug ∧
     q.1.windowFetch = env.windowFetch ∧
     q.1.xhrOpen = env.xhrOpen ∧
     q.1.xhrSend = env.xhrSend ∧
     q.2.consoleLogs = [] ∧ q.2.networkLogs = [] ∧ q.2.userActions = [] ∧
     q.2.isInitialized = false ∧
     q.1.xhrSetRequestHeader
        = (if (mergeConfig cfg).captureNetwork
           then FuncRef.wrapperRef "XMLHttpRequest.setRequestHeader"
           else env.xhrSetRequestHeader) ∧
     q.1.windowListeners = env.windowListeners
        ++ (if (mergeConfig cfg).captureConsole
            then ["error", "unhandledrejection"] else []) ∧
     q.1.documentListeners = env.documentListeners
        ++ (if (mergeConfig cfg).captureUserActions
            then ["click", "change", "submit"] else [])) := by
  cases hc : (mergeConfig cfg).captureConsole <;>
    cases hn : (mergeConfig cfg).captureNetwork <;>
      cases hu : (mergeConfig cfg).captureUserActions <;>
        cases hinfo : env.consoleInfo <;>
          simp [bcInit, bcDestroy, mkBugCapture, initConsoleCapture,
            initNetworkCapture, initUserActionCapture, consoleCall,
            addConsoleLog, setConsoleSlot, consoleSlot, FuncRef.isWrapper,
            hc, hn, hu, hinfo]

/-- C4: when the delegated fetch itself fails, exactly one synthetic entry
with status 0 and status text "Network Error" is appended (it is the last
entry of the buffer, whose length grows by one up to the maximum), and the
original error is rethrown to the caller unchanged. -/
theorem C4_fetch_failure (st : BCState) (input : FetchInput)
    (initArg : Option RequestInitModel) (startTime dur : Nat) (err : String)
    (hmax : 1 ≤ st.config.maxNetworkLogs) :
    (let e := fetchErrorEntry input initArg startTime dur err
     let r := fetchWrapper st input initArg startTime dur (.fails err)
     r.1.networkLogs = pushTrim st.networkLogs e st.config.maxNetworkLogs ∧
     r.1.networkLogs.getLast? = some e ∧
     r.1.networkLogs.length
        = min (st.networkLogs.length + 1) st.config.maxNetworkLogs ∧
     e.status = 0 ∧
     e.statusText = "Network Error" ∧
     r.2 = Except.error err) := by
  refine ⟨rfl, ?_, ?_, rfl, rfl, rfl⟩
  · exact getLast?_pushTrim _ _ _ hmax
  · exact length_pushTrim _ _ _ hmax

/-- C4 witness: the rethrow component at a concrete failing fetch. -/
theorem C4_fetch_failure_witness :
    (fetchWrapper (mkBugCapture {}) (.urlStr "https://a") none 0 3
        (.fails "TypeError: Failed to fetch")).2
      = Except.error "TypeError: Failed to fetch" :=
  (C4_fetch_failure (mkBugCapture {}) (.urlStr "https://a") none 0 3
    "TypeError: Failed to fetch" (by decide)).2.2.2.2.2

/-- C5 counterexample: with a throwing rasterizer on an instance set up
with the default configuration, the message recorded through the
interception path is an error-kind entry, not a warn-kind one: zero
warn-kind entries exist afterwards where the claim demands exactly one
warning (the snapshot itself still resolves without a screenshot). -/
theorem C5_warning_kind_counterexample :
    (let p := bcInit freshEnv (mkBugCapture {}) 0
     let benv : BrowserEnv :=
       ⟨"ua", "pl", "en", 1, 1, 1, 1, 1, "tz", true, "https://page"⟩
     let q := getCaptureData p.1 benv p.2 true (.throws "boom") 1
     (q.1.consoleLogs.filter (fun e => e.type == .warn)).length = 0 ∧
     (q.1.consoleLogs.filter (fun e => e.type == .error)).length = 1 ∧
     q.2.screenshot = none) :=
  ⟨rfl, rfl, rfl⟩

/-- C5 amended: with a rasterizer that always throws, collecting with the
screenshot requested still resolves to a snapshot carrying the buffers
(as captured before the failure), device info and page URL but no
screenshot field, and exactly one **error-level** message is recorded
through the normal logging interception path. -/
theorem C5_screenshot_degradation_amended (env : GlobalEnv) (b : BrowserEnv)
    (st : BCState) (err : String) (now : Nat)
    (hwrap : (consoleSlot env .error).isWrapper = true)
    (hmax : 1 ≤ st.config.maxConsoleLogs) :
    (let failEntry : ConsoleLogEntry :=
       { type := .error
         message := String.intercalate " "
           ["[BugCapture] Screenshot capture failed:", err]
         timestamp := now
         stack := none }
     let q := getCaptureData env b st true (.throws err) now
     q.2.screenshot = none ∧
     q.2.consoleLogs = st.consoleLogs ∧
     q.2.networkLogs = st.networkLogs ∧
     q.2.userActions = st.userActions ∧
     q.2.deviceInfo = getDeviceInfo b ∧
     q.2.pageUrl = b.locationHref ∧
     q.1.consoleLogs
        = pushTrim st.consoleLogs failEntry st.config.maxConsoleLogs ∧
     q.1.consoleLogs.getLast? = some failEntry) := by
  refine ⟨?_, ?_, ?_, ?_, ?_, ?_, ?_, ?_⟩ <;>
    simp [getCaptureData, captureScreenshot, consoleCall, hwrap,
      addConsoleLog, renderArg, getLast?_pushTrim _ _ _ hmax]

/-- C5 witness: the no-screenshot component at a concrete instance. -/
theorem C5_screenshot_degradation_amended_witness :
    (getCaptureData (bcInit freshEnv (mkBugCapture {}) 0).1
        ⟨"ua", "pl", "en", 1, 1, 1, 1, 1, "tz", true, "https://page"⟩
        (bcInit freshEnv (mkBugCapture {}) 0).2 true (.throws "boom")
        1).2.screenshot = none :=
  (C5_screenshot_degradation_amended (bcInit freshEnv (mkBugCapture {}) 0).1
    ⟨"ua", "pl", "en", 1, 1, 1, 1, 1, "tz", true, "https://page"⟩
    (bcInit freshEnv (mkBugCapture {}) 0).2 "boom" 1
    (by decide) (by decide)).1

/-- C6 counterexample: captureScreenshot does reject its caller: with a
throwing rasterizer it resolves to the rethrown original error, not to an
image-or-null result. -/
theorem C6_reject_counterexample :
    (captureScreenshot (bcInit freshEnv (mkBugCapture {}) 0).1
        (bcInit freshEnv (mkBugCapture {}) 0).2 (.throws "boom") 1).2
      = Except.error "boom" := rfl

/-- C6 amended: captureScreenshot resolves with the image on success, but
when rasterization throws it records one error-level message through the
console path and rethrows the original error to its caller; it is
getCaptureData that catches the rejection and resolves without a
screenshot field. -/
theorem C6_captureScreenshot_amended (env : GlobalEnv) (b : BrowserEnv)
    (st : BCState) (err dataUrl : String) (now : Nat) :
    (captureScreenshot env st (.rendered dataUrl) now).2
        = Except.ok dataUrl ∧
    (captureScreenshot env st (.throws err) now).2 = Except.error err ∧
    (captureScreenshot env st (.throws err) now).1
      = consoleCall env st .error
          [.str "[BugCapture] Screenshot capture failed:", .str err] now ∧
    (getCaptureData env b st true (.throws err) now).2.screenshot = none :=
  ⟨rfl, rfl, rfl, rfl⟩

/-- C8: an intercepted fetch whose response settles with status 500, a
JSON content type and a body shorter than 10000 characters records exactly
one entry, with status 500, the raw untruncated body text, and the body's
byte length as size; the response is returned unchanged. -/
theorem C8_fetch_500_json (st : BCState) (input : FetchInput)
    (initArg : Option RequestInitModel) (startTime dur : Nat)
    (resp : ResponseModel)
    (hmax : 1 ≤ st.config.maxNetworkLogs)
    (hstatus : resp.status = 500)
    (hjson : jsIncludes (jsOrStr (headersGet resp.headers "content-type") "")
        "application/json" = true)
    (hshort : resp.bodyText.length < 10000)
    (hread : resp.readFails = false) :
    (let e := fetchSuccessEntry input initArg startTime dur resp
     let r := fetchWrapper st input initArg startTime dur (.succeeds resp)
     r.1.networkLogs = pushTrim st.networkLogs e st.config.maxNetworkLogs ∧
     r.1.networkLogs.getLast? = some e ∧
     r.1.networkLogs.length
        = min (st.networkLogs.length + 1) st.config.maxNetworkLogs ∧
     e.status = 500 ∧
     e.responseBody = some resp.bodyText ∧
     e.size = resp.bodyText.utf8ByteSize ∧
     r.2 = Except.ok resp) := by
  have hnt : ¬ (10000 < resp.bodyText.length) := by omega
  have hrb : readResponseBody resp
      = { responseBody := some resp.bodyText
          size := resp.bodyText.utf8ByteSize } := by
    unfold readResponseBody
    rw [hread]
    simp [hjson, hnt]
  refine ⟨rfl, ?_, ?_, hstatus, ?_, ?_, rfl⟩
  · exact getLast?_pushTrim _ _ _ hmax
  · exact length_pushTrim _ _ _ hmax
  · simp [fetchSuccessEntry, hrb]
  · simp [fetchSuccessEntry, hrb]

/-- C8 witness: the returned-response component at a concrete 500/JSON
exchange. -/
theorem C8_fetch_500_json_witness :
    (fetchWrapper (mkBugCapture {}) (.urlStr "https://api") none 0 5
        (.succeeds ⟨500, "Internal Server Error",
          [("content-type", "application/json")],
          "\x7b\"error\":\"x\"\x7d", "", false⟩)).2
      = Except.ok ⟨500, "Internal Server Error",
          [("content-type", "application/json")],
          "\x7b\"error\":\"x\"\x7d", "", false⟩ :=
  (C8_fetch_500_json (mkBugCapture {}) (.urlStr "https://api") none 0 5
    ⟨500, "Internal Server Error", [("content-type", "application/json")],
      "\x7b\"error\":\"x\"\x7d", "", false⟩
    (by decide) rfl (by decide) (by decide) rfl).2.2.2.2.2.2

/-- C9: for every option set whose merged project key or ingestion
endpoint is empty or absent, the widget's init reports exactly one fatal
error-level configuration message through the logging channel during the
init call itself (not deferred), and installs no interception: the globals
(console methods, fetch, XHR primitives, listeners) are untouched, nothing
is saved, no launcher button is created, and the state stays
uninitialized. -/
theorem C9_config_validation (env : GlobalEnv) (options : WidgetOptions)
    (now : Nat)
    (h : (assignConfig options).projectKey = ""
      ∨ (assignConfig options).apiEndpoint = "") :
    (let r := widgetInit env mkWidgetState options now
     r.1 = env ∧
     r.2.1 = { mkWidgetState with config := assignConfig options } ∧
     r.2.1.isInitialized = false ∧
     (r.2.2 = [(.error, "[BugCapture] projectKey is required")]
       ∨ r.2.2 = [(.error, "[BugCapture] apiEndpoint is required")]) ∧
     r.2.2.map Prod.fst = [LogType.error]) := by
  by_cases hp : (assignConfig options).projectKey = ""
  · refine ⟨?_, ?_, ?_, ?_, ?_⟩ <;>
      simp [widgetInit, mkWidgetState, hp]
  · rcases h with h | h
    · exact absurd h hp
    · refine ⟨?_, ?_, ?_, ?_, ?_⟩ <;>
        simp [widgetInit, mkWidgetState, hp, h]

/-- C9 witness: options carrying an endpoint but no project key. -/
theorem C9_config_validation_witness :
    (widgetInit freshEnv mkWidgetState
        { apiEndpoint := some "https://x.test" } 0).2.1.isInitialized
      = false :=
  (C9_config_validation freshEnv { apiEndpoint := some "https://x.test" } 0
    (Or.inl rfl)).2.2.1

/-- C10 counterexample: a report submitted without a title is stored with
the title "Untitled Bug Report", not "Bug Report". -/
theorem C10_title_default_counterexample :
    (let r := bugReportSubmit [⟨1, "abc123"⟩] none 1
        { projectKey := "abc123", pageUrl := "https://e" }
     (match r with
      | .ok (row, _) => row.title
      | .error _ => "") = "Untitled Bug Report"
     ∧ "Untitled Bug Report" ≠ "Bug Report") :=
  ⟨rfl, by decide⟩

/-- C10 amended: the stored report's title defaults to
"Untitled Bug Report" for every submission that carries no title (or an
empty one), provided the project key resolves. -/
theorem C10_title_default_amended (projects : List Project)
    (uploadUrl : Option String) (insertId : Nat) (input : SubmitInput)
    (p : Project)
    (hfind : projects.find? (fun q => q.projectKey == input.projectKey)
        = some p)
    (htitle : input.title = none ∨ input.title = some "") :
    (match bugReportSubmit projects uploadUrl insertId input with
     | .ok (row, _) => row.title
     | .error _ => "") = "Untitled Bug Report" := by
  unfold bugReportSubmit
  rw [hfind]
  rcases htitle with h | h <;>
    simp [submitInsertValues, BugCaptureSDK.jsOrStr, h]

/-- C10 witness: the amended statement at a concrete submission. -/
theorem C10_title_default_amended_witness :
    (match bugReportSubmit [⟨1, "abc123"⟩] none 1
        { projectKey := "abc123", pageUrl := "https://e" } with
     | .ok (row, _) => row.title
     | .error _ => "") = "Untitled Bug Report" :=
  C10_title_default_amended [⟨1, "abc123"⟩] none 1
    { projectKey := "abc123", pageUrl := "https://e" } ⟨1, "abc123"⟩
    rfl (Or.inl rfl)

end Claims
